import Mathlib

/-!
Shallow embedding of the dockerized_etl flight-data pipeline
(src/dags/extract.py, transform.py, data_quality.py, load.py, etl.py and
src/plugins/great_expectations_utils.py).

A pandas DataFrame is modelled column-oriented: a list of named columns,
each a list of cell values.  Cells are missing values (NaN/None from JSON
null), strings, or integers; every batch this pipeline handles is built by
pd.json_normalize / pd.read_json from JSON scalars, so no column carries a
datetime dtype and the `dtype != datetime64[ns]` guard in transform.py:86
always passes.  External effects (HTTP, the Great Expectations engine, the
PostgreSQL sink, time.sleep) are modelled by explicit environment records
and traces; a raised Python exception is the `Except.error` case.
-/

deriving instance DecidableEq for Except

namespace ETL

/-- Cell value of a DataFrame: missing (NaN/None), a string, or an integer. -/
inductive Value where
  | na : Value
  | str : String → Value
  | int : Int → Value
deriving DecidableEq

/-- Python pd.isna on a cell. -/
def Value.isna : Value → Bool
  | .na => true
  | _ => false

/-- Python str() applied to a cell: str(float nan) is the text nan. -/
def pyStr : Value → String
  | .na => "nan"
  | .str s => s
  | .int n => toString n

/-- One named DataFrame column. -/
structure Column where
  name : String
  values : List Value
deriving DecidableEq

/-- A DataFrame: ordered list of named columns. -/
structure DataFrame where
  cols : List Column
deriving DecidableEq

/-- Look a column up by name (first match, as pandas label lookup). -/
def DataFrame.getCol (df : DataFrame) (n : String) : Option (List Value) :=
  (df.cols.find? (fun c => c.name == n)).map (fun c => c.values)

/-- Whether a column of this name exists (Python `field in df.columns`). -/
def DataFrame.hasCol (df : DataFrame) (n : String) : Bool :=
  df.cols.any (fun c => c.name == n)

/-- Number of rows: length of the first column (uniform in a real frame). -/
def DataFrame.rowCount (df : DataFrame) : Nat :=
  match df.cols with
  | [] => 0
  | c :: _ => c.values.length

/-- Well-formedness: every column has the frame's row count. -/
def DataFrame.Uniform (df : DataFrame) : Prop :=
  ∀ c ∈ df.cols, c.values.length = df.rowCount

/-- Map one function over every cell of every column (names kept). -/
def DataFrame.mapValues (df : DataFrame) (g : Value → Value) : DataFrame :=
  ⟨df.cols.map (fun c => ⟨c.name, c.values.map g⟩)⟩

/-- Python str.replace of the single character slash by space-hyphen-space,
applied to the character list: each occurrence is independently rewritten,
all other characters are kept. -/
def replaceSlashChar : List Char → List Char
  | [] => []
  | c :: cs => (if c = '/' then [' ', '-', ' '] else [c]) ++ replaceSlashChar cs

/-- Python s.replace slash into space-hyphen-space on a string. -/
def pyReplaceSlash (s : String) : String :=
  ⟨replaceSlashChar s.data⟩

/-- transform.py:14-28 replace_slashes_with_hyphens: missing or empty cells
give the empty string, otherwise str(value).replace of slash. -/
def replace_slashes_with_hyphens (value : Value) : String :=
  if value.isna ∨ value = .str "" then "" else pyReplaceSlash (pyStr value)

/-- Cell-level form of Series.apply replace_slashes_with_hyphens. -/
def replSlashValue (v : Value) : Value :=
  .str (replace_slashes_with_hyphens v)

/-- transform.py:40-50 column_mapping dict. -/
def column_mapping : List (String × String) :=
  [("flight_date", "flight_date"),
   ("flight_status", "flight_status"),
   ("departure.airport", "departure_airport"),
   ("departure.timezone", "departure_timezone"),
   ("arrival.airport", "arrival_airport"),
   ("arrival.timezone", "arrival_timezone"),
   ("arrival.terminal", "arrival_terminal"),
   ("airline.name", "airline_name"),
   ("flight.number", "flight_number")]

/-- pandas df.rename on one label: mapped if in the dict, else unchanged. -/
def mapColumnName (n : String) : String :=
  match column_mapping.lookup n with
  | some m => m
  | none => n

/-- transform.py:30-52 rename_columns. -/
def rename_columns (df : DataFrame) : DataFrame :=
  ⟨df.cols.map (fun c => ⟨mapColumnName c.name, c.values⟩)⟩

/-- Python df[n] = df[n].apply(f): KeyError (none) if the column is absent,
otherwise every cell of every column labelled n is mapped by f. -/
def applyToColumn (df : DataFrame) (n : String) (f : Value → Value) : Option DataFrame :=
  if df.hasCol n then
    some ⟨df.cols.map (fun c => if c.name == n then ⟨c.name, c.values.map f⟩ else c)⟩
  else none

/-- transform.py:85-87 astype(str) over the columns.  The datetime64 dtype
guard is always true here: every batch reaching transform_data is built from
JSON scalars (json_normalize or read_json on string/null data), so all
columns are object-typed and every cell is converted by Python str(). -/
def astype_str (df : DataFrame) : DataFrame :=
  df.mapValues (fun v => .str (pyStr v))

/-- pandas df.fillna with the empty string: missing cells become the empty
string, every other cell is kept. -/
def fillna_empty (df : DataFrame) : DataFrame :=
  df.mapValues (fun v => if v.isna then .str "" else v)

/-- transform.py:54-95 transform_data: rename, rewrite slashes in the two
timezone columns and the terminal column, astype(str), fillna.  Returns
none when a required column is absent (Python KeyError propagates). -/
def transform_data (df : DataFrame) : Option DataFrame := do
  let t0 := rename_columns df
  let t1 ← applyToColumn t0 "departure_timezone" replSlashValue
  let t2 ← applyToColumn t1 "arrival_timezone" replSlashValue
  let t3 ← applyToColumn t2 "arrival_terminal" replSlashValue
  pure (fillna_empty (astype_str t3))

/-- extract.py:62-72 required_fields. -/
def required_fields : List String :=
  ["flight_date",
   "flight_status",
   "departure.airport",
   "departure.timezone",
   "arrival.airport",
   "arrival.timezone",
   "arrival.terminal",
   "airline.name",
   "flight.number"]

/-- Python flights_df[field] = empty string on an absent label: appends a
column broadcasting the empty string to every row. -/
def DataFrame.addCol (df : DataFrame) (n : String) (vs : List Value) : DataFrame :=
  ⟨df.cols ++ [⟨n, vs⟩]⟩

/-- extract.py:75-84 loop: for each required field missing from the frame,
add it as a column of empty strings (both branches of the source's
base_field/sub_field conditional assign the same empty-string column). -/
def ensureFields (fields : List String) (df : DataFrame) : DataFrame :=
  match fields with
  | [] => df
  | f :: rest =>
      ensureFields rest
        (if df.hasCol f then df else df.addCol f (List.replicate df.rowCount (.str "")))

/-- extract.py:87 flights_df[required_fields]: select the named columns in
the given order (all present after ensureFields). -/
def selectFields (df : DataFrame) (fields : List String) : DataFrame :=
  ⟨fields.filterMap (fun f => (df.cols.find? (fun c => c.name == f)).map (fun c => ⟨f, c.values⟩))⟩

/-- Environment of one extract_data call: the API credential, whether the
HTTP request succeeds, whether the JSON body has the top-level data field,
and the frame pd.json_normalize builds from that data array. -/
structure ExtractEnv where
  api_key : Option String
  http_ok : Bool
  has_data_field : Bool
  flights_df : DataFrame

/-- extract.py:17-93 extract_data: missing or empty credential raises, a
failed HTTP call raises, a body without the data field raises; otherwise
the normalized frame is restricted to the nine required fields (absent
ones added as empty-string columns) and NaN cells are filled with the
empty string. -/
def extract_data (env : ExtractEnv) : Except Unit DataFrame :=
  if env.api_key.getD "" = "" then .error ()
  else if ¬ env.http_ok then .error ()
  else if ¬ env.has_data_field then .error ()
  else .ok (fillna_empty (selectFields (ensureFields required_fields env.flights_df) required_fields))

/-- One entry of data_quality.py:36-61: the expectation method name and its
kwargs (column label, value_set for the in-set check, regex for the
pattern-exclusion checks; unused kwargs are empty). -/
structure Expectation where
  expectation : String
  column : String
  value_set : List String
  regex : String
deriving DecidableEq

/-- data_quality.py:29-61 define_flight_data_expectations. -/
def define_flight_data_expectations : List Expectation :=
  [⟨"expect_column_to_exist", "flight_date", [], ""⟩,
   ⟨"expect_column_to_exist", "flight_status", [], ""⟩,
   ⟨"expect_column_to_exist", "departure_airport", [], ""⟩,
   ⟨"expect_column_to_exist", "departure_timezone", [], ""⟩,
   ⟨"expect_column_to_exist", "arrival_airport", [], ""⟩,
   ⟨"expect_column_to_exist", "arrival_timezone", [], ""⟩,
   ⟨"expect_column_to_exist", "arrival_terminal", [], ""⟩,
   ⟨"expect_column_to_exist", "airline_name", [], ""⟩,
   ⟨"expect_column_to_exist", "flight_number", [], ""⟩,
   ⟨"expect_column_values_to_be_in_set", "flight_status",
     ["active", "scheduled", "landed", "cancelled", "diverted", "incident", "delayed"], ""⟩,
   ⟨"expect_column_values_to_not_match_regex", "departure_timezone", [], ".*\\/.*"⟩,
   ⟨"expect_column_values_to_not_match_regex", "arrival_timezone", [], ".*\\/.*"⟩,
   ⟨"expect_column_values_to_not_match_regex", "arrival_terminal", [], ".*\\/.*"⟩]

/-- Environment of the validation layer: whether the great_expectations_utils
module import succeeded (data_quality.py:22-27), whether the os.makedirs calls
succeed (data_quality.py:88, great_expectations_utils.py:41), whether the
context and suite initialization succeeds (great_expectations_utils.py:43-53),
and the outcome of one engine batch run (great_expectations_utils.py:109-147:
error when the engine raises, otherwise the success flag of batch.validate). -/
structure EngineEnv where
  ge_available : Bool
  makedirs_ok : Bool
  init_ok : Bool
  run_result : Except Unit Bool

/-- great_expectations_utils.py:23-53 state after construction: the flags
record whether self.context and self.suite were set (both None when the
constructor caught an initialization error). -/
structure GreatExpectationsUtils where
  data_dir : String
  suite_name : String
  has_context : Bool
  has_suite : Bool
deriving DecidableEq

/-- great_expectations_utils.py:26-53 constructor: os.makedirs runs outside
any try and may raise; the context/suite initialization is wrapped in try,
a caught error leaves both unset. -/
def GreatExpectationsUtils.construct (env : EngineEnv) (data_dir suite_name : String) :
    Except Unit GreatExpectationsUtils :=
  if ¬ env.makedirs_ok then .error ()
  else if env.init_ok then .ok ⟨data_dir, suite_name, true, true⟩
  else .ok ⟨data_dir, suite_name, false, false⟩

/-- great_expectations_utils.py:85-153 validate_dataframe: with context or
suite unset it returns True at once; otherwise an engine error is re-raised
only under raise_on_failure (else False), and a completed run returns its
success flag, raising under raise_on_failure when that flag is False. -/
def GreatExpectationsUtils.validate_dataframe (u : GreatExpectationsUtils) (env : EngineEnv)
    (df : DataFrame) (expectations : List Expectation) (raise_on_failure : Bool) :
    Except Unit Bool :=
  if ¬ u.has_context ∨ ¬ u.has_suite then .ok true
  else
    match env.run_result with
    | .error e => if raise_on_failure then .error e else .ok false
    | .ok success => if ¬ success ∧ raise_on_failure then .error () else .ok success

/-- data_quality.py:63-118 data_quality_check: skip when the import failed;
otherwise run makedirs, construct the utils and validate with
raise_on_failure set to False inside a try whose except returns the
original frame. -/
def data_quality_check (env : EngineEnv) (df : DataFrame) : Except Unit DataFrame :=
  if ¬ env.ge_available then .ok df
  else
    match (do
        if ¬ env.makedirs_ok then Except.error () else
        do
          let ge_utils ← GreatExpectationsUtils.construct env
            "/opt/airflow/data/great_expectations" "flight_data_suite"
          let _validation_result ← ge_utils.validate_dataframe env df
            define_flight_data_expectations false
          pure df : Except Unit DataFrame) with
    | .ok d => .ok d
    | .error _ => .ok df

/-- Destination table of the sink: ordered column labels and rows. -/
structure Table where
  colNames : List String
  rows : List (List Value)
deriving DecidableEq

/-- load.py:33-47 DDL column list of the testfligoo table: the nine
canonical columns plus the auto-increment id and the created_at timestamp. -/
def testfligoo_ddl_columns : List String :=
  ["id",
   "flight_date",
   "flight_status",
   "departure_airport",
   "departure_timezone",
   "arrival_airport",
   "arrival_timezone",
   "arrival_terminal",
   "airline_name",
   "flight_number",
   "created_at"]

/-- load.py:19-66 create_table_if_not_exists: when no table exists, create
the empty DDL table; an existing table is left untouched. -/
def create_table_if_not_exists (db : Option Table) : Option Table :=
  match db with
  | none => some ⟨testfligoo_ddl_columns, []⟩
  | some t => some t

/-- Row-major view of a frame (cell i of every column, per row index). -/
def DataFrame.toRows (df : DataFrame) : List (List Value) :=
  (List.range df.rowCount).map (fun i => df.cols.map (fun c => c.values.getD i .na))

/-- pandas df.to_sql with if_exists set to replace: the existing table is
dropped and a fresh table is created from the frame itself, so the stored
table carries exactly the frame's columns and rows. -/
def to_sql_replace (df : DataFrame) (_db : Option Table) : Option Table :=
  some ⟨df.cols.map (fun c => c.name), df.toRows⟩

/-- load.py:87 max_retries. -/
def max_retries : Nat := 3

/-- load.py:88 retry_delay in seconds. -/
def retry_delay : Nat := 5

/-- Environment of one load_data call: whether create_table_if_not_exists
succeeds and whether the i-th write attempt (0-based) succeeds. -/
structure LoadEnv where
  table_ok : Bool
  write_ok : Nat → Bool

/-- Observable outcome of load_data: the returned flag or raised error, the
number of write attempts performed, the sleep durations taken between
attempts, and the final database state. -/
structure LoadOutcome where
  result : Except Unit Bool
  writes : Nat
  sleeps : List Nat
  db : Option Table
deriving DecidableEq

/-- load.py:107-135 retry loop over `for attempt in range(max_retries)`:
a successful write returns True at once; a failed write sleeps retry_delay
and continues unless it was the last attempt, which re-raises. -/
def load_attempt_loop (env : LoadEnv) (df : DataFrame) (db : Option Table) :
    List Nat → LoadOutcome
  | [] => ⟨.ok false, 0, [], db⟩
  | attempt :: rest =>
    if env.write_ok attempt then
      ⟨.ok true, 1, [], to_sql_replace df db⟩
    else if rest.isEmpty then
      ⟨.error (), 1, [], db⟩
    else
      let o := load_attempt_loop env df db rest
      ⟨o.result, o.writes + 1, retry_delay :: o.sleeps, o.db⟩

/-- load.py:68-137 load_data: ensure the table exists (a raise there
propagates before any write), then run the retry loop; the trailing
`return False` is the empty-loop case of load_attempt_loop. -/
def load_data (env : LoadEnv) (df : DataFrame) (db : Option Table) : LoadOutcome :=
  if env.table_ok then
    load_attempt_loop env df (create_table_if_not_exists db) (List.range max_retries)
  else
    ⟨.error (), 0, [], db⟩

/-- JSON scalar as stored in the XCom payload. -/
inductive JVal where
  | jnull : JVal
  | jstr : String → JVal
  | jnum : Int → JVal
deriving DecidableEq

/-- Serialization of one cell into the JSON payload. -/
def jvalOfValue : Value → JVal
  | .na => .jnull
  | .str s => .jstr s
  | .int n => .jnum n

/-- Raw deserialization of one JSON scalar back into a cell. -/
def valueOfJVal : JVal → Value
  | .jnull => .na
  | .jstr s => .str s
  | .jnum n => .int n

/-- Split-orient JSON table as produced by df.to_json(orient=split):
the column labels and the row-major data array (etl.py:32,47,62). -/
structure JsonTable where
  columns : List String
  data : List (List JVal)
deriving DecidableEq

/-- pandas df.to_json with orient split: labels plus row-major cell data. -/
def to_json_split (df : DataFrame) : JsonTable :=
  ⟨df.cols.map (fun c => c.name),
   (List.range df.rowCount).map (fun i => df.cols.map (fun c => jvalOfValue (c.values.getD i .na)))⟩

/-- Integer literal as recognised by the pandas read_json dtype inference
on a column of strings: optional minus sign then one or more digits. -/
def isIntLiteral (s : String) : Bool :=
  match s.data with
  | [] => false
  | c :: rest =>
      if c = '-' then !rest.isEmpty && rest.all Char.isDigit
      else (c :: rest).all Char.isDigit

/-- Whitespace characters CPython's float() strips from both ends of its
argument (the Py_UNICODE_ISSPACE set). -/
def pySpace (c : Char) : Bool :=
  (0x09 ≤ c.toNat && c.toNat ≤ 0x0D) || (0x1C ≤ c.toNat && c.toNat ≤ 0x1F) ||
    c.toNat = 0x20 || c.toNat = 0x85 || c.toNat = 0xA0 || c.toNat = 0x1680 ||
    (0x2000 ≤ c.toNat && c.toNat ≤ 0x200A) || c.toNat = 0x2028 || c.toNat = 0x2029 ||
    c.toNat = 0x202F || c.toNat = 0x205F || c.toNat = 0x3000

/-- Strip leading and trailing float() whitespace. -/
def pyStrip (cs : List Char) : List Char :=
  ((cs.dropWhile pySpace).reverse.dropWhile pySpace).reverse

/-- Drop one optional leading sign. -/
def dropSign : List Char → List Char
  | '+' :: rest => rest
  | '-' :: rest => rest
  | cs => cs

/-- The case-insensitive keywords float() accepts beside numerals. -/
def isInfNan (cs : List Char) : Bool :=
  let l := cs.map Char.toLower
  l == "inf".data || l == "infinity".data || l == "nan".data

/-- Continuation of a digit part: further digits, with single underscores
allowed only between digits (the CPython numeric-literal rule). -/
def digitRun : List Char → Bool
  | [] => true
  | '_' :: c :: rest => c.isDigit && digitRun rest
  | ['_'] => false
  | c :: rest => c.isDigit && digitRun rest

/-- A digitpart of the CPython float grammar: one or more digits with
single underscores between digits. -/
def digitPart (cs : List Char) : Bool :=
  match cs with
  | [] => false
  | c :: rest => c.isDigit && digitRun rest

/-- Split at the first exponent letter. -/
def breakExp : List Char → List Char × Option (List Char)
  | [] => ([], none)
  | c :: rest =>
      if c = 'e' ∨ c = 'E' then ([], some rest)
      else
        let p := breakExp rest
        (c :: p.1, p.2)

/-- Split at the first dot. -/
def breakDot : List Char → List Char × Option (List Char)
  | [] => ([], none)
  | c :: rest =>
      if c = '.' then ([], some rest)
      else
        let p := breakDot rest
        (c :: p.1, p.2)

/-- The exact grammar of the strings CPython float() accepts: optional
surrounding whitespace, an optional sign, then inf, infinity or nan in any
case, or a decimal literal — a digitpart, or a digitpart with a dot and an
optional fraction digitpart, or a dot with a fraction digitpart, each
optionally followed by an exponent letter, an optional sign and a
digitpart.  Digits are ASCII: CPython additionally maps other Unicode
decimal digits, which cannot occur in this pipeline's data; strings made
of those count as rejected here. -/
def pyFloatParseable (s : String) : Bool :=
  let t := dropSign (pyStrip s.data)
  isInfNan t ||
    (let p := breakExp t
     let mantOk :=
       match breakDot p.1 with
       | (ip, none) => digitPart ip
       | (ip, some fp) =>
           (digitPart ip && (fp.isEmpty || digitPart fp)) || (ip.isEmpty && digitPart fp)
     let expOk :=
       match p.2 with
       | none => true
       | some ec => digitPart (dropSign ec)
     mantOk && expOk)

/-- pandas read_json dtype inference on one deserialized column.  A column
holding at least one value float() rejects is left as deserialized.  A
column consisting entirely of float()-accepted strings is converted to
numbers: all integer literals give integers; the remaining numeric forms
(fractions, exponents, signed or keyword literals) would come back as
float64, which this model's cell type cannot carry, so that sub-branch
keeps the strings — it is exercised nowhere below: the amended round-trip
theorem's hypothesis excludes fully float-parseable columns, and the
counterexample uses an all-integer-literal column. -/
def try_convert_col (vs : List Value) : List Value :=
  if vs.all (fun v => match v with | .str s => pyFloatParseable s | _ => false) then
    if vs.all (fun v => match v with | .str s => isIntLiteral s | _ => false) then
      vs.map (fun v => match v with | .str s => .int ((s.toInt?).getD 0) | w => w)
    else vs
  else vs

/-- pandas pd.read_json with orient split (etl.py:41,56,71): rebuild each
labelled column from the row-major data, then apply dtype inference
per column.  The name-triggered date conversion of read_json does not fire
on any of the nine canonical labels, so it is not modelled. -/
def read_json_split (j : JsonTable) : DataFrame :=
  ⟨(List.range j.columns.length).map (fun k =>
     ⟨j.columns.getD k "",
      try_convert_col (j.data.map (fun row => valueOfJVal (row.getD k .jnull)))⟩)⟩

/-- Specification-side relation (from the spec's words, for comparison with
the code's slash rewriting): the second character list is the first in which
each occurrence of the slash character has been replaced by exactly the
three characters space, hyphen, space, all other characters kept in order. -/
inductive SlashReplaced : List Char → List Char → Prop where
  | nil : SlashReplaced [] []
  | slash {cs ds : List Char} :
      SlashReplaced cs ds → SlashReplaced ('/' :: cs) (' ' :: '-' :: ' ' :: ds)
  | keep {c : Char} {cs ds : List Char} :
      c ≠ '/' → SlashReplaced cs ds → SlashReplaced (c :: cs) (c :: ds)

/-- Net effect of transform_data on one cell of the column named n:
slash-rewritten text in the two timezone columns and the terminal column,
plain Python str() text elsewhere. -/
def transformCellFor (n : String) (v : Value) : Value :=
  if n = "departure_timezone" ∨ n = "arrival_timezone" ∨ n = "arrival_terminal"
  then .str (replace_slashes_with_hyphens v)
  else .str (pyStr v)

/-- The end-to-end example record of the spec, as the frame json_normalize
builds from it (source-side dotted labels, one row). -/
def spec_example_input : DataFrame :=
  ⟨[⟨"flight_date", [.str "2024-01-01"]⟩,
    ⟨"flight_status", [.str "active"]⟩,
    ⟨"departure.airport", [.str "JFK"]⟩,
    ⟨"departure.timezone", [.str "America/New_York"]⟩,
    ⟨"arrival.airport", [.str "LAX"]⟩,
    ⟨"arrival.timezone", [.str "America/Los_Angeles"]⟩,
    ⟨"arrival.terminal", [.str "4/B"]⟩,
    ⟨"airline.name", [.str "Delta"]⟩,
    ⟨"flight.number", [.str "DL100"]⟩]⟩

/-- Transformed form of spec_example_input, as transform_data produces it. -/
def spec_example_output : DataFrame :=
  ⟨[⟨"flight_date", [.str "2024-01-01"]⟩,
    ⟨"flight_status", [.str "active"]⟩,
    ⟨"departure_airport", [.str "JFK"]⟩,
    ⟨"departure_timezone", [.str "America - New_York"]⟩,
    ⟨"arrival_airport", [.str "LAX"]⟩,
    ⟨"arrival_timezone", [.str "America - Los_Angeles"]⟩,
    ⟨"arrival_terminal", [.str "4 - B"]⟩,
    ⟨"airline_name", [.str "Delta"]⟩,
    ⟨"flight_number", [.str "DL100"]⟩]⟩

/-- One-row batch whose flight_date cell is missing: the three slash
columns (required by transform_data) are present and empty. -/
def c4_missing_date_input : DataFrame :=
  ⟨[⟨"flight_date", [.na]⟩,
    ⟨"departure_timezone", [.str ""]⟩,
    ⟨"arrival_timezone", [.na]⟩,
    ⟨"arrival_terminal", [.str "4/B"]⟩]⟩

/-- The spec's example record with the common all-digits flight number. -/
def c5_input : DataFrame :=
  ⟨[⟨"flight_date", [.str "2024-01-01"]⟩,
    ⟨"flight_status", [.str "active"]⟩,
    ⟨"departure.airport", [.str "JFK"]⟩,
    ⟨"departure.timezone", [.str "America/New_York"]⟩,
    ⟨"arrival.airport", [.str "LAX"]⟩,
    ⟨"arrival.timezone", [.str "America/Los_Angeles"]⟩,
    ⟨"arrival.terminal", [.str "4/B"]⟩,
    ⟨"airline.name", [.str "Delta"]⟩,
    ⟨"flight.number", [.str "100"]⟩]⟩

/-- Transformed form of c5_input (all cells strings, flight number 100). -/
def c5_transformed : DataFrame :=
  ⟨[⟨"flight_date", [.str "2024-01-01"]⟩,
    ⟨"flight_status", [.str "active"]⟩,
    ⟨"departure_airport", [.str "JFK"]⟩,
    ⟨"departure_timezone", [.str "America - New_York"]⟩,
    ⟨"arrival_airport", [.str "LAX"]⟩,
    ⟨"arrival_timezone", [.str "America - Los_Angeles"]⟩,
    ⟨"arrival_terminal", [.str "4 - B"]⟩,
    ⟨"airline_name", [.str "Delta"]⟩,
    ⟨"flight_number", [.str "100"]⟩]⟩

/-- Sink table as it stands after create_table_if_not_exists and one
earlier load cycle: the DDL columns and two previously stored rows. -/
def c6_prev_table : Table :=
  ⟨testfligoo_ddl_columns,
   [[.int 1, .str "2023-12-30", .str "landed", .str "AAA", .str "TZ1",
     .str "BBB", .str "TZ2", .str "1", .str "Old Air", .str "OA1",
     .str "2023-12-30 00:00:00"],
    [.int 2, .str "2023-12-31", .str "landed", .str "CCC", .str "TZ3",
     .str "DDD", .str "TZ4", .str "2", .str "Old Air", .str "OA2",
     .str "2023-12-31 00:00:00"]]⟩

/-- One-row canonical batch to load. -/
def c6_batch : DataFrame :=
  ⟨[⟨"flight_date", [.str "2024-01-01"]⟩,
    ⟨"flight_status", [.str "active"]⟩,
    ⟨"departure_airport", [.str "JFK"]⟩,
    ⟨"departure_timezone", [.str "America - New_York"]⟩,
    ⟨"arrival_airport", [.str "LAX"]⟩,
    ⟨"arrival_timezone", [.str "America - Los_Angeles"]⟩,
    ⟨"arrival_terminal", [.str "4 - B"]⟩,
    ⟨"airline_name", [.str "Delta"]⟩,
    ⟨"flight_number", [.str "DL100"]⟩]⟩

/-- Load environment in which every write attempt succeeds. -/
def c6_env : LoadEnv := ⟨true, fun _ => true⟩

/-- Load environment with two transient write failures then success. -/
def c2_env : LoadEnv := ⟨true, fun i => decide (i = 2)⟩

/-- Extractor response frame: two records, arrival.terminal absent
altogether, and several cells null. -/
def c8_response_frame : DataFrame :=
  ⟨[⟨"flight_date", [.str "2024-01-01", .na]⟩,
    ⟨"flight_status", [.str "active", .str "landed"]⟩,
    ⟨"departure.airport", [.str "JFK", .str "LAX"]⟩,
    ⟨"departure.timezone", [.str "America/New_York", .na]⟩,
    ⟨"arrival.airport", [.na, .str "MIA"]⟩,
    ⟨"arrival.timezone", [.str "America/Los_Angeles", .str "America/New_York"]⟩,
    ⟨"airline.name", [.str "Delta", .str "United"]⟩,
    ⟨"flight.number", [.str "100", .str "1722"]⟩]⟩

/-- Extract environment delivering c8_response_frame. -/
def c8_env : ExtractEnv := ⟨some "key", true, true, c8_response_frame⟩

/-- Frame extract_data produces from c8_env: all nine required fields in
order, the absent arrival.terminal filled with empty strings, nulls
replaced by the empty string. -/
def c8_output : DataFrame :=
  ⟨[⟨"flight_date", [.str "2024-01-01", .str ""]⟩,
    ⟨"flight_status", [.str "active", .str "landed"]⟩,
    ⟨"departure.airport", [.str "JFK", .str "LAX"]⟩,
    ⟨"departure.timezone", [.str "America/New_York", .str ""]⟩,
    ⟨"arrival.airport", [.str "", .str "MIA"]⟩,
    ⟨"arrival.timezone", [.str "America/Los_Angeles", .str "America/New_York"]⟩,
    ⟨"arrival.terminal", [.str "", .str ""]⟩,
    ⟨"airline.name", [.str "Delta", .str "United"]⟩,
    ⟨"flight.number", [.str "100", .str "1722"]⟩]⟩

/-- Engine environment in which the GE import succeeded but context and
suite construction raised. -/
def c10_env : EngineEnv := ⟨true, true, false, .error ()⟩

/-- The nine canonical destination-side column labels. -/
def canonical_columns : List String :=
  ["flight_date",
   "flight_status",
   "departure_airport",
   "departure_timezone",
   "arrival_airport",
   "arrival_timezone",
   "arrival_terminal",
   "airline_name",
   "flight_number"]

/-!
Theorems.  Helper lemmas come first, the claim theorems refer only to the
definitions above and to the helper lemmas.
-/

theorem slash_not_mem_replaceSlashChar (cs : List Char) : '/' ∉ replaceSlashChar cs := by
  induction cs with
  | nil => simp [replaceSlashChar]
  | cons c t ih =>
    by_cases h : c = '/'
    · subst h
      simp only [replaceSlashChar, if_pos rfl, List.mem_append]
      rintro (hm | hm)
      · simp at hm
      · exact ih hm
    · simp only [replaceSlashChar, if_neg h, List.mem_append]
      rintro (hm | hm)
      · simp at hm
        exact h hm.symm
      · exact ih hm

theorem replaceSlashChar_of_not_mem (cs : List Char) (h : '/' ∉ cs) :
    replaceSlashChar cs = cs := by
  induction cs with
  | nil => rfl
  | cons c t ih =>
    have hc : c ≠ '/' := fun hc => h (hc ▸ List.mem_cons_self c t)
    have ht : '/' ∉ t := fun hm => h (List.mem_cons_of_mem c hm)
    simp [replaceSlashChar, hc, ih ht]

theorem slashReplaced_replaceSlashChar (cs : List Char) :
    SlashReplaced cs (replaceSlashChar cs) := by
  induction cs with
  | nil => exact .nil
  | cons c t ih =>
    by_cases h : c = '/'
    · subst h
      simpa [replaceSlashChar] using SlashReplaced.slash ih
    · simpa [replaceSlashChar, h] using SlashReplaced.keep h ih

theorem slash_not_mem_repl (v : Value) :
    '/' ∉ (replace_slashes_with_hyphens v).data := by
  unfold replace_slashes_with_hyphens
  split
  · intro hm
    simp [String.data] at hm
  · exact slash_not_mem_replaceSlashChar _

theorem repl_empty_of_missing (v : Value) (h : v = .na ∨ v = .str "") :
    replace_slashes_with_hyphens v = "" := by
  rcases h with h | h <;> subst h <;> rfl

theorem repl_str_of_no_slash (s : String) (h : '/' ∉ s.data) :
    replace_slashes_with_hyphens (.str s) = s := by
  by_cases hs : s = ""
  · subst hs; rfl
  · have hcond : ¬((Value.str s).isna = true ∨ Value.str s = .str "") := by
      simp [Value.isna, hs]
    rw [replace_slashes_with_hyphens, if_neg hcond]
    show pyReplaceSlash s = s
    rw [pyReplaceSlash, replaceSlashChar_of_not_mem s.data h]

theorem repl_repl (v : Value) :
    replace_slashes_with_hyphens (.str (replace_slashes_with_hyphens v)) =
      replace_slashes_with_hyphens v :=
  repl_str_of_no_slash _ (slash_not_mem_repl v)

theorem repl_slashReplaced (v : Value) (h : ¬(v = .na ∨ v = .str "")) :
    SlashReplaced (pyStr v).data (replace_slashes_with_hyphens v).data := by
  have hcond : ¬(v.isna = true ∨ v = .str "") := by
    rcases v with _ | s | n
    · exact absurd (Or.inl rfl) h
    · simpa [Value.isna] using fun hs => h (Or.inr (by rw [hs]))
    · simp [Value.isna]
  rw [replace_slashes_with_hyphens, if_neg hcond]
  exact slashReplaced_replaceSlashChar _

/-- Claim C1: data_quality_check never raises and returns its input batch
unchanged, whatever the state of the validation engine. -/
theorem c1_quality_check_returns_batch_unchanged (env : EngineEnv) (df : DataFrame) :
    data_quality_check env df = .ok df := by
  rcases env with ⟨ga, mk, init, run⟩
  cases ga <;> cases mk <;> cases init <;> rcases run with e | s <;>
    simp [data_quality_check, GreatExpectationsUtils.construct,
      GreatExpectationsUtils.validate_dataframe, Except.bind, bind, pure, Except.pure]

/-- Claim C10: when the Great Expectations constructor caught an
initialization error (context and suite left unset), validate_dataframe
reports success for every frame, expectation list and raise flag. -/
theorem c10_init_failure_reported_as_success (env : EngineEnv)
    (hmk : env.makedirs_ok = true) (hin : env.init_ok = false)
    (dd sn : String) (u : GreatExpectationsUtils)
    (hu : GreatExpectationsUtils.construct env dd sn = .ok u)
    (env2 : EngineEnv) (df : DataFrame) (exps : List Expectation) (rof : Bool) :
    u.validate_dataframe env2 df exps rof = .ok true := by
  rw [GreatExpectationsUtils.construct, hmk, hin] at hu
  simp only [not_true, if_false, if_neg (by simp : ¬(False : Prop))] at hu
  have : u = ⟨dd, sn, false, false⟩ := by
    cases hu; rfl
  subst this
  rfl

theorem c10_init_failure_reported_as_success_witness :
    GreatExpectationsUtils.validate_dataframe
      ⟨"/opt/airflow/data/great_expectations", "flight_data_suite", false, false⟩
      c10_env c5_transformed define_flight_data_expectations true = .ok true :=
  c10_init_failure_reported_as_success c10_env rfl rfl
    "/opt/airflow/data/great_expectations" "flight_data_suite"
    ⟨"/opt/airflow/data/great_expectations", "flight_data_suite", false, false⟩
    rfl c10_env c5_transformed define_flight_data_expectations true

/-- Claim C2: on write failure load_data retries up to 3 attempts total
with a fixed 5-second pause between consecutive attempts; after the third
failed attempt the error propagates; a first success at attempt k performs
exactly k+1 writes and returns True. -/
theorem c2_load_retry_policy (env : LoadEnv) (df : DataFrame) (db : Option Table)
    (ht : env.table_ok = true) :
    ((∀ i, i < max_retries → env.write_ok i = false) →
        (load_data env df db).result = .error () ∧
        (load_data env df db).writes = 3 ∧
        (load_data env df db).sleeps = [retry_delay, retry_delay]) ∧
    (∀ k, k < max_retries → (∀ i, i < k → env.write_ok i = false) →
        env.write_ok k = true →
        (load_data env df db).result = .ok true ∧
        (load_data env df db).writes = k + 1 ∧
        (load_data env df db).sleeps = List.replicate k retry_delay) := by
  have hr : List.range max_retries = [0, 1, 2] := rfl
  constructor
  · intro hall
    have h0 := hall 0 (by decide)
    have h1 := hall 1 (by decide)
    have h2 := hall 2 (by decide)
    simp [load_data, ht, hr, load_attempt_loop, h0, h1, h2, List.isEmpty]
  · intro k hk hik hwk
    have hk3 : k < 3 := hk
    interval_cases k
    · simp [load_data, ht, hr, load_attempt_loop, hwk, List.isEmpty]
    · have h0 := hik 0 (by decide)
      simp [load_data, ht, hr, load_attempt_loop, h0, hwk, List.isEmpty, List.replicate]
    · have h0 := hik 0 (by decide)
      have h1 := hik 1 (by decide)
      simp [load_data, ht, hr, load_attempt_loop, h0, h1, hwk, List.isEmpty, List.replicate]

theorem c2_load_retry_policy_witness :
    (load_data c2_env c6_batch none).result = .ok true ∧
    (load_data c2_env c6_batch none).writes = 3 ∧
    (load_data c2_env c6_batch none).sleeps = [retry_delay, retry_delay] := by
  have h := (c2_load_retry_policy c2_env c6_batch none rfl).2 2 (by decide)
    (by decide) rfl
  simpa using h

/-- Claim C9: load_data never returns False: every run either returns True
or raises; the trailing return False of the source is unreachable. -/
theorem c9_load_never_returns_false (env : LoadEnv) (df : DataFrame) (db : Option Table) :
    (load_data env df db).result ≠ .ok false := by
  by_cases ht : env.table_ok
  · have hr : List.range max_retries = [0, 1, 2] := rfl
    cases h0 : env.write_ok 0 <;> cases h1 : env.write_ok 1 <;> cases h2 : env.write_ok 2 <;>
      simp [load_data, ht, hr, load_attempt_loop, h0, h1, h2, List.isEmpty]
  · simp [load_data, ht]

/-- Claim C4, failing run: a batch whose flight_date cell is missing comes
out of transform_data holding the text nan there, not the empty string
(astype(str) runs before fillna, so the fillna at transform.py:90 is dead). -/
theorem c4_missing_value_becomes_nan_text :
    (transform_data c4_missing_date_input).bind (fun o => o.getCol "flight_date") =
      some [Value.str "nan"] ∧
    Value.str "nan" ≠ Value.str "" := by decide

/-- Claim C6, failing run: after a successful load over an existing table
holding the DDL columns and two old rows, the stored table carries exactly
the nine frame columns and the one batch row; the auto-increment id and
created_at columns are gone, because to_sql(if_exists=replace) drops the
DDL table and recreates it from the frame. -/
theorem c6_full_replace_drops_ddl_columns :
    (load_data c6_env c6_batch (some c6_prev_table)).result = .ok true ∧
    ((load_data c6_env c6_batch (some c6_prev_table)).db).map Table.colNames =
      some canonical_columns ∧
    "id" ∉ canonical_columns ∧
    "created_at" ∉ canonical_columns ∧
    ((load_data c6_env c6_batch (some c6_prev_table)).db).map Table.rows =
      some [[Value.str "2024-01-01", Value.str "active", Value.str "JFK",
             Value.str "America - New_York", Value.str "LAX",
             Value.str "America - Los_Angeles", Value.str "4 - B",
             Value.str "Delta", Value.str "DL100"]] := by decide

/-- Claim C5, counterexample: the transformed spec example with the common
all-digits flight number does not survive the XCom JSON round-trip: the
flight_number column comes back as integers, not strings. -/
theorem c5_roundtrip_counterexample :
    transform_data c5_input = some c5_transformed ∧
    read_json_split (to_json_split c5_transformed) ≠ c5_transformed := by decide

theorem find?_name_map (l : List Column) (f : Column → Column)
    (hf : ∀ c, (f c).name = c.name) (n : String) :
    (l.map f).find? (fun c => c.name == n) = (l.find? (fun c => c.name == n)).map f := by
  rw [List.find?_map]
  have he : ((fun c : Column => c.name == n) ∘ f) = (fun c => c.name == n) := by
    funext c
    simp [Function.comp, hf c]
  rw [he]

theorem getCol_mapValues (df : DataFrame) (g : Value → Value) (n : String) :
    (df.mapValues g).getCol n = (df.getCol n).map (List.map g) := by
  show ((df.cols.map _).find? _).map _ = _
  rw [find?_name_map df.cols (fun c => ⟨c.name, c.values.map g⟩) (fun c => rfl)]
  unfold DataFrame.getCol
  cases df.cols.find? (fun c => c.name == n) <;> rfl

theorem applyToColumn_eq (df : DataFrame) (n : String) (f : Value → Value) (d : DataFrame)
    (h : applyToColumn df n f = some d) :
    df.hasCol n = true ∧
    d = ⟨df.cols.map (fun c => if c.name == n then ⟨c.name, c.values.map f⟩ else c)⟩ := by
  unfold applyToColumn at h
  split at h
  next hc =>
    cases h
    exact ⟨hc, rfl⟩
  next hc => cases h

theorem transform_data_cols (df out : DataFrame) (h : transform_data df = some out) :
    out.cols = (rename_columns df).cols.map
      (fun c => ⟨c.name, c.values.map (transformCellFor c.name)⟩) := by
  unfold transform_data at h
  simp only [bind, Option.bind_eq_some, pure, Option.some.injEq] at h
  obtain ⟨t1, h1, t2, h2, t3, h3, hout⟩ := h
  obtain ⟨-, ht1⟩ := applyToColumn_eq _ _ _ _ h1
  obtain ⟨-, ht2⟩ := applyToColumn_eq _ _ _ _ h2
  obtain ⟨-, ht3⟩ := applyToColumn_eq _ _ _ _ h3
  subst ht3
  subst ht2
  subst ht1
  subst hout
  simp only [fillna_empty, astype_str, DataFrame.mapValues, List.map_map]
  apply List.map_congr_left
  rintro ⟨nm, vs⟩ _
  by_cases hd : nm = "departure_timezone"
  · subst hd
    simp only [Function.comp, transformCellFor]
    simp only [List.map_map]
    simp
    intro v _
    rfl
  by_cases ha : nm = "arrival_timezone"
  · subst ha
    simp only [Function.comp, transformCellFor]
    simp only [List.map_map]
    simp
    intro v _
    rfl
  by_cases hterm : nm = "arrival_terminal"
  · subst hterm
    simp only [Function.comp, transformCellFor]
    simp only [List.map_map]
    simp
    intro v _
    rfl
  have hcond : ¬(nm = "departure_timezone" ∨ nm = "arrival_timezone" ∨
      nm = "arrival_terminal") := by
    rintro (hx | hx | hx) <;> [exact hd hx; exact ha hx; exact hterm hx]
  simp only [Function.comp, beq_iff_eq, if_neg hd, if_neg ha, if_neg hterm, List.map_map]
  congr 1
  apply List.map_congr_left
  intro v _
  simp only [transformCellFor, if_neg hcond]
  rfl

theorem getCol_map_perName (l : List Column) (G : String → Value → Value) (n : String) :
    (DataFrame.mk (l.map (fun c => ⟨c.name, c.values.map (G c.name)⟩))).getCol n =
      ((DataFrame.mk l).getCol n).map (List.map (G n)) := by
  unfold DataFrame.getCol
  rw [find?_name_map l (fun c => ⟨c.name, c.values.map (G c.name)⟩) (fun c => rfl) n]
  cases hf : l.find? (fun c => c.name == n) with
  | none => rfl
  | some c =>
    have hn : c.name = n := by simpa using List.find?_some hf
    simp [hn]

/-- Claim C3: in each of the three delimiter-bearing columns, the
transformed cell is the slash rewrite of the incoming cell: missing or
empty cells give the empty string; any other cell has every slash replaced
by exactly space-hyphen-space and contains no slash afterwards. -/
theorem c3_slash_fields_rewritten (df out : DataFrame) (h : transform_data df = some out)
    (cname : String)
    (hm : cname ∈ ["departure_timezone", "arrival_timezone", "arrival_terminal"]) :
    out.getCol cname =
      ((rename_columns df).getCol cname).map
        (List.map (fun v => Value.str (replace_slashes_with_hyphens v))) ∧
    ∀ v : Value,
      ((v = .na ∨ v = .str "") → replace_slashes_with_hyphens v = "") ∧
      '/' ∉ (replace_slashes_with_hyphens v).data ∧
      (¬(v = .na ∨ v = .str "") →
        SlashReplaced (pyStr v).data (replace_slashes_with_hyphens v).data) := by
  constructor
  · have hc := transform_data_cols df out h
    have hfun : transformCellFor cname = fun v => Value.str (replace_slashes_with_hyphens v) := by
      funext v
      simp only [transformCellFor]
      rw [if_pos]
      simp only [List.mem_cons, List.not_mem_nil, or_false] at hm
      tauto
    obtain ⟨ocols⟩ := out
    simp only at hc
    subst hc
    rw [getCol_map_perName (rename_columns df).cols transformCellFor cname, hfun]
  · intro v
    exact ⟨repl_empty_of_missing v, slash_not_mem_repl v, repl_slashReplaced v⟩

theorem c3_slash_fields_rewritten_witness :
    spec_example_output.getCol "departure_timezone" =
      ((rename_columns spec_example_input).getCol "departure_timezone").map
        (List.map (fun v => Value.str (replace_slashes_with_hyphens v))) :=
  (c3_slash_fields_rewritten spec_example_input spec_example_output (by decide)
    "departure_timezone" (by decide)).1

theorem mapColumnName_idem (n : String) :
    mapColumnName (mapColumnName n) = mapColumnName n := by
  rcases h : column_mapping.lookup n with _ | m
  · have h1 : mapColumnName n = n := by rw [mapColumnName, h]
    rw [h1, h1]
  · have h1 : mapColumnName n = m := by rw [mapColumnName, h]
    rw [h1]
    have hm : m = "flight_date" ∨ m = "flight_status" ∨ m = "departure_airport" ∨
        m = "departure_timezone" ∨ m = "arrival_airport" ∨ m = "arrival_timezone" ∨
        m = "arrival_terminal" ∨ m = "airline_name" ∨ m = "flight_number" := by
      simp only [column_mapping, List.lookup] at h
      repeat' split at h
      all_goals simp_all
    rcases hm with h2 | h2 | h2 | h2 | h2 | h2 | h2 | h2 | h2 <;> subst h2 <;> rfl

theorem rename_columns_of_fixed (df : DataFrame)
    (hfix : ∀ c ∈ df.cols, mapColumnName c.name = c.name) :
    rename_columns df = df := by
  obtain ⟨l⟩ := df
  unfold rename_columns
  congr 1
  conv_rhs => rw [← List.map_id l]
  apply List.map_congr_left
  intro c hc
  obtain ⟨nm, vs⟩ := c
  simp only [id]
  have := hfix ⟨nm, vs⟩ hc
  simp only at this
  rw [this]

theorem hasCol_map_nameKept (l : List Column) (f : Column → Column)
    (hf : ∀ c, (f c).name = c.name) (n : String) :
    (DataFrame.mk (l.map f)).hasCol n = (DataFrame.mk l).hasCol n := by
  unfold DataFrame.hasCol
  rw [List.any_map]
  congr 1
  funext c
  simp [Function.comp, hf c]

theorem mapValues_fixed (df : DataFrame) (g : Value → Value)
    (hg : ∀ c ∈ df.cols, ∀ v ∈ c.values, g v = v) :
    df.mapValues g = df := by
  obtain ⟨l⟩ := df
  unfold DataFrame.mapValues
  congr 1
  conv_rhs => rw [← List.map_id l]
  apply List.map_congr_left
  intro c hc
  obtain ⟨nm, vs⟩ := c
  simp only [id]
  congr 1
  conv_rhs => rw [← List.map_id vs]
  apply List.map_congr_left
  intro v hv
  exact hg ⟨nm, vs⟩ hc v hv

theorem applyToColumn_self (d : DataFrame) (n : String) (f : Value → Value)
    (hn : d.hasCol n = true)
    (hfix : ∀ c ∈ d.cols, c.name = n → ∀ v ∈ c.values, f v = v) :
    applyToColumn d n f = some d := by
  unfold applyToColumn
  rw [if_pos hn]
  congr 1
  obtain ⟨l⟩ := d
  congr 1
  conv_rhs => rw [← List.map_id l]
  apply List.map_congr_left
  intro c hc
  simp only [id]
  by_cases hnm : c.name = n
  · rw [if_pos (by simpa using hnm)]
    have hv : c.values.map f = c.values := by
      conv_rhs => rw [← List.map_id c.values]
      apply List.map_congr_left
      intro v hv
      exact hfix c hc hnm v hv
    obtain ⟨nm, vs⟩ := c
    simp only at hv
    rw [hv]
  · rw [if_neg (by simpa using hnm)]

theorem applyMap_nameKept (n : String) (f : Value → Value) (c : Column) :
    (if c.name == n then (⟨c.name, c.values.map f⟩ : Column) else c).name = c.name := by
  by_cases hx : (c.name == n) = true <;> simp [hx]

theorem transform_out_names_fixed (df out : DataFrame) (h : transform_data df = some out) :
    ∀ c ∈ out.cols, mapColumnName c.name = c.name := by
  have hc := transform_data_cols df out h
  intro c hcm
  rw [hc] at hcm
  obtain ⟨c0, hc0, rfl⟩ := List.mem_map.mp hcm
  show mapColumnName c0.name = c0.name
  simp only [rename_columns] at hc0
  obtain ⟨c1, -, rfl⟩ := List.mem_map.mp hc0
  exact mapColumnName_idem c1.name

theorem transform_out_hasCol_eq (df out : DataFrame) (h : transform_data df = some out)
    (n : String) : out.hasCol n = (rename_columns df).hasCol n := by
  have hc := transform_data_cols df out h
  obtain ⟨ocols⟩ := out
  simp only at hc
  subst hc
  exact hasCol_map_nameKept (rename_columns df).cols
    (fun c => ⟨c.name, c.values.map (transformCellFor c.name)⟩) (fun c => rfl) n

theorem transform_base_hasCol (df out : DataFrame) (h : transform_data df = some out) :
    (rename_columns df).hasCol "departure_timezone" = true ∧
    (rename_columns df).hasCol "arrival_timezone" = true ∧
    (rename_columns df).hasCol "arrival_terminal" = true := by
  unfold transform_data at h
  simp only [bind, Option.bind_eq_some, pure, Option.some.injEq] at h
  obtain ⟨t1, h1, t2, h2, t3, h3, hout⟩ := h
  obtain ⟨hb1, ht1⟩ := applyToColumn_eq _ _ _ _ h1
  obtain ⟨hb2, ht2⟩ := applyToColumn_eq _ _ _ _ h2
  obtain ⟨hb3, ht3⟩ := applyToColumn_eq _ _ _ _ h3
  subst ht1
  subst ht2
  refine ⟨hb1, ?_, ?_⟩
  · rw [hasCol_map_nameKept _ _ (applyMap_nameKept "departure_timezone" replSlashValue)] at hb2
    exact hb2
  · rw [hasCol_map_nameKept _ _ (applyMap_nameKept "arrival_timezone" replSlashValue),
      hasCol_map_nameKept _ _ (applyMap_nameKept "departure_timezone" replSlashValue)] at hb3
    exact hb3

theorem transform_out_cells_str (df out : DataFrame) (h : transform_data df = some out) :
    ∀ c ∈ out.cols, ∀ v ∈ c.values, ∃ s, v = Value.str s := by
  have hc := transform_data_cols df out h
  intro c hcm v hv
  rw [hc] at hcm
  obtain ⟨c0, -, rfl⟩ := List.mem_map.mp hcm
  simp only at hv
  obtain ⟨v0, -, rfl⟩ := List.mem_map.mp hv
  unfold transformCellFor
  split <;> exact ⟨_, rfl⟩

theorem transform_out_slash_cells (df out : DataFrame) (h : transform_data df = some out)
    (n : String) (hn : n ∈ ["departure_timezone", "arrival_timezone", "arrival_terminal"]) :
    ∀ c ∈ out.cols, c.name = n → ∀ v ∈ c.values, replSlashValue v = v := by
  have hc := transform_data_cols df out h
  intro c hcm hname v hv
  rw [hc] at hcm
  obtain ⟨c0, -, rfl⟩ := List.mem_map.mp hcm
  simp only at hv hname
  obtain ⟨v0, -, rfl⟩ := List.mem_map.mp hv
  have hcell : transformCellFor c0.name v0 = .str (replace_slashes_with_hyphens v0) := by
    unfold transformCellFor
    rw [if_pos]
    rw [hname]
    simp only [List.mem_cons, List.not_mem_nil, or_false] at hn
    tauto
  rw [hcell]
  show Value.str (replace_slashes_with_hyphens (.str (replace_slashes_with_hyphens v0))) = _
  rw [repl_repl]

/-- Claim C7: transform_data is idempotent on its own output: a batch it
produced goes through a second run unchanged. -/
theorem c7_transform_idempotent (df out : DataFrame) (h : transform_data df = some out) :
    transform_data out = some out := by
  have hnames := transform_out_names_fixed df out h
  have hren : rename_columns out = out := rename_columns_of_fixed out hnames
  obtain ⟨hb1, hb2, hb3⟩ := transform_base_hasCol df out h
  have hdep : out.hasCol "departure_timezone" = true := by
    rw [transform_out_hasCol_eq df out h]
    exact hb1
  have harr : out.hasCol "arrival_timezone" = true := by
    rw [transform_out_hasCol_eq df out h]
    exact hb2
  have hterm : out.hasCol "arrival_terminal" = true := by
    rw [transform_out_hasCol_eq df out h]
    exact hb3
  have hstr := transform_out_cells_str df out h
  have ha1 : applyToColumn out "departure_timezone" replSlashValue = some out :=
    applyToColumn_self _ _ _ hdep (transform_out_slash_cells df out h _ (by decide))
  have ha2 : applyToColumn out "arrival_timezone" replSlashValue = some out :=
    applyToColumn_self _ _ _ harr (transform_out_slash_cells df out h _ (by decide))
  have ha3 : applyToColumn out "arrival_terminal" replSlashValue = some out :=
    applyToColumn_self _ _ _ hterm (transform_out_slash_cells df out h _ (by decide))
  have hast : astype_str out = out := by
    apply mapValues_fixed
    intro c hc2 v hv
    obtain ⟨s, rfl⟩ := hstr c hc2 v hv
    rfl
  have hfill : fillna_empty out = out := by
    apply mapValues_fixed
    intro c hc2 v hv
    obtain ⟨s, rfl⟩ := hstr c hc2 v hv
    rfl
  unfold transform_data
  simp only [hren, ha1, ha2, ha3, hast, hfill, Option.bind_eq_bind, Option.some_bind,
    Option.pure_def]

theorem c7_transform_idempotent_witness :
    transform_data spec_example_output = some spec_example_output :=
  c7_transform_idempotent spec_example_input spec_example_output (by decide)

theorem rowCount_addCol_replicate (df : DataFrame) (n : String) :
    (df.addCol n (List.replicate df.rowCount (Value.str ""))).rowCount = df.rowCount := by
  obtain ⟨l⟩ := df
  cases l with
  | nil => rfl
  | cons c t => rfl

theorem hasCol_addCol (df : DataFrame) (n m : String) (vs : List Value) :
    (df.addCol n vs).hasCol m = (df.hasCol m || (n == m)) := by
  unfold DataFrame.addCol DataFrame.hasCol
  rw [List.any_append]
  simp [List.any]

theorem getCol_addCol_of_has (df : DataFrame) (n : String) (vs : List Value) (m : String)
    (h : df.hasCol m = true) : (df.addCol n vs).getCol m = df.getCol m := by
  unfold DataFrame.getCol DataFrame.addCol
  rw [List.find?_append]
  obtain ⟨c, hcm, hcp⟩ := List.any_eq_true.mp h
  cases hf : df.cols.find? (fun c => c.name == m) with
  | none =>
    exact absurd hcp (List.find?_eq_none.mp hf c hcm)
  | some c2 => rfl

theorem getCol_addCol_self (df : DataFrame) (n : String) (vs : List Value)
    (h : df.hasCol n = false) : (df.addCol n vs).getCol n = some vs := by
  unfold DataFrame.getCol DataFrame.addCol
  rw [List.find?_append]
  have hnone : df.cols.find? (fun c => c.name == n) = none := by
    rw [List.find?_eq_none]
    intro c hc hp
    have h2 : df.cols.any (fun c => c.name == n) = false := h
    rw [List.any_eq_false] at h2
    exact h2 c hc hp
  rw [hnone]
  simp [List.find?]

theorem ensure_rowCount (fs : List String) (df : DataFrame) :
    (ensureFields fs df).rowCount = df.rowCount := by
  induction fs generalizing df with
  | nil => rfl
  | cons f rest ih =>
    show (ensureFields rest _).rowCount = _
    rw [ih]
    split
    · rfl
    · exact rowCount_addCol_replicate df f

theorem ensure_hasCol_mono (fs : List String) (df : DataFrame) (m : String)
    (h : df.hasCol m = true) : (ensureFields fs df).hasCol m = true := by
  induction fs generalizing df with
  | nil => exact h
  | cons f rest ih =>
    show (ensureFields rest _).hasCol m = true
    apply ih
    split
    · exact h
    · rw [hasCol_addCol, h]
      rfl

theorem ensure_hasCol_of_mem (fs : List String) (df : DataFrame) (f : String)
    (hf : f ∈ fs) : (ensureFields fs df).hasCol f = true := by
  induction fs generalizing df with
  | nil => cases hf
  | cons g rest ih =>
    show (ensureFields rest _).hasCol f = true
    rcases List.mem_cons.mp hf with h | h
    · subst h
      apply ensure_hasCol_mono
      split
      next hg => exact hg
      next hg =>
        rw [hasCol_addCol]
        simp
    · exact ih _ h

theorem ensure_getCol_of_has (fs : List String) (df : DataFrame) (m : String)
    (h : df.hasCol m = true) : (ensureFields fs df).getCol m = df.getCol m := by
  induction fs generalizing df with
  | nil => rfl
  | cons f rest ih =>
    show (ensureFields rest _).getCol m = _
    split
    · exact ih _ h
    next hg =>
      rw [ih _ (by rw [hasCol_addCol, h]; rfl)]
      exact getCol_addCol_of_has df f _ m h

theorem ensure_getCol_of_missing (fs : List String) (df : DataFrame) (f : String)
    (h : df.hasCol f = false) (hf : f ∈ fs) :
    (ensureFields fs df).getCol f = some (List.replicate df.rowCount (Value.str "")) := by
  induction fs generalizing df with
  | nil => cases hf
  | cons g rest ih =>
    show (ensureFields rest _).getCol f = _
    rcases List.mem_cons.mp hf with hgf | hmem
    · subst hgf
      split
      next hg =>
        rw [hg] at h
        cases h
      next hg =>
        rw [ensure_getCol_of_has rest _ f (by rw [hasCol_addCol, h]; simp)]
        exact getCol_addCol_self df f _ h
    · split
      next hg => exact ih _ h hmem
      next hg =>
        by_cases hfg : g = f
        · subst hfg
          rw [ensure_getCol_of_has rest _ g (by rw [hasCol_addCol, h]; simp)]
          exact getCol_addCol_self df g _ h
        · rw [ih _ (by rw [hasCol_addCol, h]; simp [hfg]) hmem, rowCount_addCol_replicate]

theorem mapValues_names (df : DataFrame) (g : Value → Value) :
    (df.mapValues g).cols.map (fun c => c.name) = df.cols.map (fun c => c.name) := by
  unfold DataFrame.mapValues
  rw [List.map_map]
  rfl

theorem find?_some_of_hasCol (df : DataFrame) (g : String) (h : df.hasCol g = true) :
    ∃ c, df.cols.find? (fun x => x.name == g) = some c ∧ c.name = g := by
  have hs : (df.cols.find? (fun x => x.name == g)).isSome := by
    rw [List.find?_isSome]
    exact List.any_eq_true.mp h
  obtain ⟨c, hc⟩ := Option.isSome_iff_exists.mp hs
  exact ⟨c, hc, by simpa using List.find?_some hc⟩

theorem selectFields_names (df : DataFrame) (fields : List String)
    (h : ∀ g ∈ fields, df.hasCol g = true) :
    (selectFields df fields).cols.map (fun c => c.name) = fields := by
  induction fields with
  | nil => rfl
  | cons g rest ih =>
    obtain ⟨c, hc, -⟩ := find?_some_of_hasCol df g (h g (List.mem_cons_self g rest))
    simp only [selectFields, List.filterMap_cons, hc, Option.map_some', List.map_cons]
    exact congrArg (List.cons g) (ih (fun x hx => h x (List.mem_cons_of_mem g hx)))

theorem selectFields_getCol (df : DataFrame) (fields : List String) (f : String)
    (hmem : f ∈ fields) (hall : ∀ g ∈ fields, df.hasCol g = true) :
    (selectFields df fields).getCol f = df.getCol f := by
  induction fields with
  | nil => cases hmem
  | cons g rest ih =>
    obtain ⟨c, hc, -⟩ := find?_some_of_hasCol df g (hall g (List.mem_cons_self g rest))
    unfold selectFields DataFrame.getCol
    simp only [List.filterMap_cons, hc, Option.map_some']
    by_cases hgf : g = f
    · subst hgf
      rw [List.find?_cons_of_pos _ (by simp)]
      simp [hc]
    · rw [List.find?_cons_of_neg _ (by simp [hgf])]
      rcases List.mem_cons.mp hmem with hx | hx
      · exact absurd hx.symm hgf
      · exact ih hx (fun x hx2 => hall x (List.mem_cons_of_mem g hx2))

set_option maxHeartbeats 2000000 in
/-- Claim C8: for every response whose data array parses, extract_data
returns a batch holding exactly the nine source-side fields in order; an
omitted field is present as a column of empty strings over the whole row
count, and in a present field every null cell is replaced by the empty
string while other cells are kept. -/
theorem c8_extract_canonical_fields (env : ExtractEnv) (out : DataFrame)
    (h : extract_data env = .ok out) :
    out.cols.map (fun c => c.name) = required_fields ∧
    ∀ f ∈ required_fields,
      (env.flights_df.hasCol f = false →
        out.getCol f = some (List.replicate env.flights_df.rowCount (Value.str ""))) ∧
      (∀ vs, env.flights_df.getCol f = some vs →
        out.getCol f = some (vs.map (fun v => if v.isna then Value.str "" else v))) := by
  unfold extract_data at h
  split at h
  · cases h
  split at h
  · cases h
  split at h
  · cases h
  have hout : out = fillna_empty
      (selectFields (ensureFields required_fields env.flights_df) required_fields) := by
    cases h
    rfl
  subst hout
  have hens : ∀ g ∈ required_fields,
      (ensureFields required_fields env.flights_df).hasCol g = true :=
    fun g hg => ensure_hasCol_of_mem _ _ _ hg
  constructor
  · rw [fillna_empty, mapValues_names]
    exact selectFields_names _ _ hens
  · intro f hf
    constructor
    · intro hmiss
      rw [fillna_empty, getCol_mapValues, selectFields_getCol _ _ _ hf hens,
        ensure_getCol_of_missing _ _ _ hmiss hf]
      simp
    · intro vs hvs
      have hhas : env.flights_df.hasCol f = true := by
        unfold DataFrame.getCol at hvs
        cases hfind : env.flights_df.cols.find? (fun c => c.name == f) with
        | none =>
          rw [hfind] at hvs
          cases hvs
        | some c =>
          show env.flights_df.cols.any _ = true
          rw [List.any_eq_true]
          refine ⟨c, List.mem_of_find?_eq_some hfind, ?_⟩
          have hp := List.find?_some hfind
          simpa using hp
      rw [fillna_empty, getCol_mapValues, selectFields_getCol _ _ _ hf hens,
        ensure_getCol_of_has _ _ _ hhas, hvs]
      rfl

theorem c8_extract_canonical_fields_witness :
    c8_output.cols.map (fun c => c.name) = required_fields ∧
    c8_output.getCol "arrival.terminal" = some (List.replicate 2 (Value.str "")) :=
  ⟨(c8_extract_canonical_fields c8_env c8_output (by decide)).1,
   ((c8_extract_canonical_fields c8_env c8_output (by decide)).2
     "arrival.terminal" (by decide)).1 (by decide)⟩

theorem valueOf_jvalOf (v : Value) : valueOfJVal (jvalOfValue v) = v := by
  cases v <;> rfl

theorem range_map_getD (vs : List Value) (d : Value) :
    (List.range vs.length).map (fun i => vs.getD i d) = vs := by
  apply List.ext_getElem
  · simp
  · intro i h1 h2
    simp only [List.getElem_map, List.getElem_range]
    rw [List.getD_eq_getElem?_getD, List.getElem?_eq_getElem h2]
    rfl

theorem try_convert_col_of_witness (vs : List Value) (v : Value) (hv : v ∈ vs)
    (s : String) (hvs : v = Value.str s) (hs : pyFloatParseable s = false) :
    try_convert_col vs = vs := by
  have hnot : ¬(vs.all (fun v => match v with
      | Value.str s => pyFloatParseable s | _ => false) = true) := by
    intro hall
    have h2 := List.all_eq_true.mp hall v hv
    rw [hvs] at h2
    have h3 : pyFloatParseable s = true := h2
    rw [h3] at hs
    cases hs
  simp [try_convert_col, hnot]

/-- Claim C5, amended: the XCom round-trip (to_json with orient split, then
read_json) restores a transformed batch exactly, provided every column
holds at least one value that Python float() rejects (pyFloatParseable is
that grammar); a column made entirely of float()-accepted strings is
deserialized as numbers instead (see the counterexample). -/
theorem c5_roundtrip_lossless_amended (df : DataFrame) (hu : df.Uniform)
    (hnum : ∀ c ∈ df.cols, ∃ v ∈ c.values, ∃ s,
      v = Value.str s ∧ pyFloatParseable s = false) :
    read_json_split (to_json_split df) = df := by
  unfold read_json_split to_json_split
  obtain ⟨l⟩ := df
  dsimp only
  congr 1
  apply List.ext_getElem
  · simp
  · intro k h1 h2
    simp only [List.length_map, List.length_range] at h1 h2
    rcases hk : l[k] with ⟨nm, vs⟩
    have hmem : (⟨nm, vs⟩ : Column) ∈ l := hk ▸ List.getElem_mem h2
    have hlen : vs.length = DataFrame.rowCount ⟨l⟩ := by
      have := hu ⟨nm, vs⟩ hmem
      simpa using this
    simp only [List.getElem_map, List.getElem_range]
    have hname : (l.map (fun c => c.name)).getD k "" = nm := by
      rw [List.getD_eq_getElem?_getD,
        List.getElem?_eq_getElem (by simpa using h2)]
      simp [hk]
    have hvals : ((List.range (DataFrame.rowCount ⟨l⟩)).map
          (fun i => l.map (fun c => jvalOfValue (c.values.getD i Value.na)))).map
          (fun row => valueOfJVal (row.getD k JVal.jnull)) = vs := by
      rw [List.map_map]
      have hstep : ∀ i : Nat,
          ((fun row => valueOfJVal (row.getD k JVal.jnull)) ∘
            (fun i => l.map (fun c => jvalOfValue (c.values.getD i Value.na)))) i =
          vs.getD i Value.na := by
        intro i
        simp only [Function.comp]
        rw [List.getD_eq_getElem?_getD,
          List.getElem?_eq_getElem (by simpa using h2)]
        simp [hk, valueOf_jvalOf]
      rw [List.map_congr_left (fun i _ => hstep i)]
      rw [← hlen, range_map_getD]
    rw [hvals, hname]
    obtain ⟨v, hvmem, s, hvs, hsf⟩ := hnum ⟨nm, vs⟩ hmem
    rw [try_convert_col_of_witness vs v (by simpa using hvmem) s hvs hsf]

theorem c5_roundtrip_lossless_amended_witness :
    read_json_split (to_json_split spec_example_output) = spec_example_output :=
  c5_roundtrip_lossless_amended spec_example_output
    (by unfold DataFrame.Uniform; decide)
    (by
      intro c hc
      fin_cases hc <;>
        exact ⟨_, List.mem_singleton_self _, _, rfl, by decide⟩)

end ETL
